import Mathlib

/-!
Shallow embedding of the matching/ranking engine of the repository
(`src/clustering_service.py`, fixed-K variant, and `src/test.py`, auto-K
variant).  User records are modelled exactly as the code reads them from the
document store; Python floats are modelled as real numbers, float rounding
`round(x, 2)` as `⌊100·x + 1/2⌋ / 100`.  The KMeans call itself (an external
sklearn routine) is modelled by an explicit label-assignment parameter
`labels`, documented at `cluster` below; everything else (encoding,
standardization, cosine similarity including sklearn's zero-norm guard,
sorting, rescaling, truncation) is translated directly from the source.
-/

/-- The value stored under one day key of a dict-shaped availability:
a list of slots, a single string, or some other JSON value (which
`flatten_availability` ignores). -/
inductive AvailValue
  | slots (l : List String)
  | single (s : String)
  | other
deriving DecidableEq

/-- The `availability` field of a user document: a dict from day names to
values, an already-flat list of tokens, or some other shape (ignored).
A missing field is modelled as `dict []` (the code's `u.get('availability', {})`). -/
inductive Availability
  | dict (entries : List (String × AvailValue))
  | flat (slots : List String)
  | other
deriving DecidableEq

/-- One user document from the `users` collection, with exactly the fields the
clustering endpoint reads.  A missing `skills`/`interests` field is the empty
list (the code's `u.get('skills', [])`); `big5` is the association list of the
`big5_*` numeric fields present on the document (the code defaults a missing
key to `0.5`). -/
structure UserRecord where
  uid : String
  skills : List String
  interests : List String
  availability : Availability
  big5 : List (String × ℝ)

instance : Inhabited UserRecord := ⟨⟨"", [], [], .dict [], []⟩⟩

/-- The constant `BIG5_KEYS` from the source (`clustering_service.py` line 37). -/
def BIG5_KEYS : List String := ["big5_O", "big5_C", "big5_E", "big5_A", "big5_N"]

/-- Function `flatten_availability` (`clustering_service.py` lines 39-51): dict-shaped
availability emits one token `day ++ "_" ++ slot` per slot of a list-valued
day and a single token for a string-valued day; a flat list passes through
unchanged; anything else yields `[]`. -/
def flatten_availability (u : UserRecord) : List String :=
  match u.availability with
  | .dict entries =>
      entries.flatMap (fun e =>
        match e.2 with
        | .slots l => l.map (fun slot => e.1 ++ "_" ++ slot)
        | .single s => [e.1 ++ "_" ++ s]
        | .other => [])
  | .flat slots => slots
  | .other => []

/-- Python's `sorted(set(...))` on strings: deduplicate, then sort ascending. -/
def sortedVocab (l : List String) : List String :=
  l.dedup.insertionSort (· ≤ ·)

/-- The sorted skills vocabulary `all_skills` (lines 68-75). -/
def vocabSkills (users : List UserRecord) : List String :=
  sortedVocab (users.flatMap UserRecord.skills)

/-- The sorted interests vocabulary `all_interests` (lines 69-76). -/
def vocabInterests (users : List UserRecord) : List String :=
  sortedVocab (users.flatMap UserRecord.interests)

/-- The sorted availability vocabulary `all_avail` (lines 70-77); note it is
built with the same `flatten_availability` used for each user's row. -/
def vocabAvail (users : List UserRecord) : List String :=
  sortedVocab (users.flatMap flatten_availability)

/-- One-hot indicator segment: 1 for vocabulary entries owned by the user,
else 0, in vocabulary order (lines 80-83). -/
noncomputable def oneHot (vocab : List String) (owned : List String) : List ℝ :=
  vocab.map (fun s => if s ∈ owned then (1 : ℝ) else 0)

/-- The five personality scores `[float(u.get(k, 0.5)) for k in BIG5_KEYS]`
(line 84). -/
noncomputable def big5Vec (u : UserRecord) : List ℝ :=
  BIG5_KEYS.map (fun k => (u.big5.lookup k).getD (1/2 : ℝ))

/-- One row of the feature matrix (lines 79-85): skills one-hot, then
interests, then availability, then the five personality scores. -/
noncomputable def encodeRow (allSkills allInterests allAvail : List String) (u : UserRecord) :
    List ℝ :=
  (allSkills.map (fun s => if s ∈ u.skills then (1 : ℝ) else 0))
    ++ (allInterests.map (fun i => if i ∈ u.interests then (1 : ℝ) else 0))
    ++ (allAvail.map (fun a => if a ∈ flatten_availability u then (1 : ℝ) else 0))
    ++ (BIG5_KEYS.map (fun k => (u.big5.lookup k).getD (1/2 : ℝ)))

/-- The list `feature_matrix` before scaling (lines 78-85). -/
noncomputable def rawMatrix (users : List UserRecord) : List (List ℝ) :=
  users.map (encodeRow (vocabSkills users) (vocabInterests users) (vocabAvail users))

/-- Arithmetic mean of a list of reals (`numpy.mean` of one column). -/
noncomputable def mean (xs : List ℝ) : ℝ := xs.sum / xs.length

/-- Population variance of one column (`numpy.var` with `ddof = 0`, which is
what `StandardScaler` uses). -/
noncomputable def popVar (xs : List ℝ) : ℝ :=
  ((xs.map (fun x => (x - mean xs) ^ 2)).sum) / xs.length

/-- The per-column divisor of `StandardScaler`: the population standard deviation,
with sklearn's `_handle_zeros_in_scale` replacing a zero scale by 1 so that a
constant column maps to zero instead of dividing by zero. -/
noncomputable def scaleOf (xs : List ℝ) : ℝ :=
  if popVar xs = 0 then 1 else Real.sqrt (popVar xs)

/-- Standardization of one column: subtract the column mean, divide by the
guarded standard deviation. -/
noncomputable def standardize (xs : List ℝ) : List ℝ :=
  xs.map (fun x => (x - mean xs) / scaleOf xs)

/-- Column `c` of a row-major matrix. -/
noncomputable def column (M : List (List ℝ)) (c : ℕ) : List ℝ :=
  M.map (fun row => row.getD c 0)

/-- One entry of the scaled matrix: entry `x` in column `c` of `M`. -/
noncomputable def normalizeEntry (M : List (List ℝ)) (c : ℕ) (x : ℝ) : ℝ :=
  (x - mean (column M c)) / scaleOf (column M c)

/-- Model of `StandardScaler().fit_transform(feature_matrix)` (lines 86-87): every
column is standardized over the current snapshot. -/
noncomputable def normalizeMatrix (M : List (List ℝ)) : List (List ℝ) :=
  M.map (fun row => ((List.range row.length).zip row).map
    (fun p => normalizeEntry M p.1 p.2))

/-- Matrix `X_scaled`: the standardized feature matrix of a snapshot. -/
noncomputable def featureMatrix (users : List UserRecord) : List (List ℝ) :=
  normalizeMatrix (rawMatrix users)

/-- Dot product of two vectors (trailing entries of the longer one ignored,
as with equal-length numpy rows). -/
noncomputable def dotR (a b : List ℝ) : ℝ :=
  ((a.zip b).map (fun p => p.1 * p.2)).sum

/-- sklearn's zero-norm guard in `preprocessing.normalize`: a zero norm is
replaced by 1, so a zero vector stays zero and its cosine with anything is 0. -/
noncomputable def nz (x : ℝ) : ℝ := if x = 0 then 1 else x

/-- Model of `sklearn.metrics.pairwise.cosine_similarity` of two rows:
`a·b / (‖a‖·‖b‖)` with zero norms replaced by 1. -/
noncomputable def cosSklearn (a b : List ℝ) : ℝ :=
  dotR a b / (nz (Real.sqrt (dotR a a)) * nz (Real.sqrt (dotR b b)))

/-- The map `(sim + 1) / 2 * 100` (line 107): rescale a similarity from [-1, 1]
to [0, 100]. -/
noncomputable def rescale (s : ℝ) : ℝ := (s + 1) / 2 * 100

/-- Python's `round(x, 2)`: round to 2 decimal places.  (Mathlib's `round`
rounds half up while Python rounds half to even; the two agree except at
exact half-cent values, which do not occur in any statement below.) -/
noncomputable def round2 (x : ℝ) : ℝ := (round (100 * x) : ℤ) / 100

/-- Model of `similarity_pairs.sort(key=lambda x: x[0], reverse=True)` (line 102):
Python's stable sort, descending on the similarity component.  Modelled as
insertion sort with the total preorder "greater-or-equal similarity", which
is stable in the same sense: an element is placed before the first element of
greater-or-equal... i.e. it stays after every strictly-greater element and
before every later equal-key element. -/
noncomputable def sortPairsDesc (l : List (ℝ × ℕ)) : List (ℝ × ℕ) :=
  l.insertionSort (fun p q => q.1 ≤ p.1)

/-- One entry of the JSON response (lines 104-110). -/
structure MatchResult where
  uid : String
  similarity : ℝ

/-- The response of the `/cluster` endpoint: a JSON list of matches (HTTP
200), or the `{'error': 'User not found'}` / HTTP 404 response. -/
inductive ClusterResponse
  | ok (results : List MatchResult)
  | notFound

/-- Lines 101-110: sort the (similarity, snapshot-index) pairs descending by
similarity, truncate to `top_n`, and emit `{uid, similarity}` with the
similarity rescaled to 0-100 and rounded to 2 decimals. -/
noncomputable def rankCandidates (users : List UserRecord) (topN : ℕ)
    (pairs : List (ℝ × ℕ)) : List MatchResult :=
  ((sortPairsDesc pairs).take topN).map
    (fun p => ⟨(users.getD p.2 default).uid, round2 (rescale p.1)⟩)

/-- The count `k = min(3, len(users))` (`clustering_service.py` line 88): the cluster
count of the fixed-K variant. -/
def fixedK (n : ℕ) : ℕ := min 3 n

/-- The bound `max_k = min(len(users), 10)` (`test.py` line 91): the upper end of the
K search range of the auto-K variant. -/
def maxK (n : ℕ) : ℕ := min n 10

/-- The selection `optimal_k = kneedle.elbow or 3` (`test.py` line 98): the detected elbow
K if any (Python's `or` treats `None` — and `0`, which cannot occur since the
search range starts at 1 — as absent), else the constant fallback 3. -/
def optimalK : Option ℕ → ℕ
  | none => 3
  | some 0 => 3
  | some (k + 1) => k + 1

/-- sklearn's `KMeans(n_clusters=k)` precondition on `n` samples: it raises
`ValueError: n_samples should be >= n_clusters` unless `1 ≤ k ≤ n`. -/
def kmeansValid (k n : ℕ) : Prop := 1 ≤ k ∧ k ≤ n

/-- The `/cluster` endpoint (`clustering_service.py` lines 53-111) on a
snapshot `users` (in document order), query `userId` and `top_n`.

`labels` is the output of `KMeans(n_clusters=min(3, len(users)),
random_state=42).fit_predict(X_scaled)` — the one sklearn call this embedding
does not recompute; it is passed in as the list of per-user cluster labels
(for a fixed seed it is a deterministic function of the scaled matrix).
Control flow is the source's: fewer than 2 users returns `[]` before
anything else; an absent query id is a 404 (the code checks this only after
clustering, which cannot fail since `min(3, n) ≤ n`); a singleton cohort
returns `[]`; otherwise cohort members are ranked by cosine similarity. -/
noncomputable def cluster (users : List UserRecord) (userId : String)
    (topN : ℕ) (labels : List ℕ) : ClusterResponse :=
  if users.length < 2 then .ok []
  else
    let ids := users.map UserRecord.uid
    if userId ∈ ids then
      let idx := List.indexOf userId ids
      let X := featureMatrix users
      let userClu := labels.getD idx 0
      let clusterIndices :=
        (labels.enum.filter (fun p => p.2 == userClu && p.1 != idx)).map Prod.fst
      if clusterIndices = [] then .ok []
      else
        let sims := clusterIndices.map
          (fun i => cosSklearn (X.getD idx []) (X.getD i []))
        .ok (rankCandidates users topN (sims.zip clusterIndices))
    else .notFound

/-! ## Basic lemmas -/

theorem length_encodeRow (S I A : List String) (u : UserRecord) :
    (encodeRow S I A u).length = S.length + I.length + A.length + 5 := by
  simp [encodeRow, BIG5_KEYS]
  ring

theorem length_normalizeMatrix_row (M : List (List ℝ)) (row : List ℝ) :
    (((List.range row.length).zip row).map
      (fun p => normalizeEntry M p.1 p.2)).length = row.length := by
  simp

/-! ## C10: the fixed-K variant uses `min(3, population)` -/

/-- C10: in the fixed-K variant the cluster count is `min(3, len(users))`
(not the constant 3), so for every snapshot of at least 2 users it satisfies
the KMeans precondition `1 ≤ k ≤ n` — the cohort count never exceeds the
population and a total assignment of users to cohorts exists. -/
theorem c10_fixedK_valid (n : ℕ) (hn : 2 ≤ n) :
    fixedK n = min 3 n ∧ fixedK 2 ≠ 3 ∧ 1 ≤ fixedK n ∧ fixedK n ≤ n ∧
      kmeansValid (fixedK n) n ∧
      ∃ labels : List ℕ, labels.length = n ∧ ∀ c ∈ labels, c < fixedK n := by
  have h1 : 1 ≤ fixedK n := by simp [fixedK]; omega
  have h2 : fixedK n ≤ n := by simp [fixedK]
  refine ⟨rfl, by simp [fixedK], h1, h2, ⟨h1, h2⟩, List.replicate n 0, by simp, ?_⟩
  intro c hc
  rw [List.eq_of_mem_replicate hc]
  omega

/-- Witness for `c10_fixedK_valid` at the concrete population 2. -/
theorem c10_fixedK_valid_witness :
    2 ≤ 2 ∧ (fixedK 2 = min 3 2 ∧ fixedK 2 ≠ 3 ∧ 1 ≤ fixedK 2 ∧ fixedK 2 ≤ 2 ∧
      kmeansValid (fixedK 2) 2 ∧
      ∃ labels : List ℕ, labels.length = 2 ∧ ∀ c ∈ labels, c < fixedK 2) :=
  ⟨by norm_num, c10_fixedK_valid 2 (by norm_num)⟩

/-! ## C2: the auto-K variant's elbow selection -/

/-- C2 counterexample: for a population of 2 the auto-K variant searches
K in `1..maxK 2 = 1..2`; when no elbow is detected (with only two points on
the inertia curve there is no interior point of maximum curvature, so
`KneeLocator` reports none), the fallback `optimal_k = kneedle.elbow or 3`
selects K = 3, which violates the KMeans precondition `k ≤ n` for n = 2 —
so the code does not always produce a valid cohort assignment with K not
exceeding the population. -/
theorem c2_counterexample :
    maxK 2 = 2 ∧ optimalK none = 3 ∧ ¬ kmeansValid (optimalK none) 2 := by
  refine ⟨rfl, rfl, ?_⟩
  intro h
  exact absurd h.2 (by decide)

/-- C2 (amended): when an elbow K in the search range `1..min(population, 10)`
is detected, the auto-K variant selects exactly that K and the selection is
valid (a label in `[0, K)` for every user exists with K ≤ population); when no
elbow is detected it falls back to K = 3, which is valid only for populations
of at least 3. -/
theorem c2_elbow_selection (n : ℕ) (e : Option ℕ) (_hn : 2 ≤ n)
    (he : ∀ k, e = some k → 1 ≤ k ∧ k ≤ maxK n) :
    (∀ k, e = some k → optimalK e = k ∧ kmeansValid (optimalK e) n) ∧
    (e = none → optimalK e = 3 ∧ (3 ≤ n → kmeansValid (optimalK e) n)) := by
  constructor
  · rintro k rfl
    obtain ⟨h1, h2⟩ := he k rfl
    have hk : optimalK (some k) = k := by
      cases k with
      | zero => omega
      | succ m => rfl
    have hmk : maxK n ≤ n := by simp [maxK]
    exact ⟨hk, by rw [hk]; exact ⟨h1, le_trans h2 hmk⟩⟩
  · rintro rfl
    exact ⟨rfl, fun h3 => ⟨by decide, h3⟩⟩

/-- Witness for `c2_elbow_selection`: population 5 with a detected elbow at 2. -/
theorem c2_elbow_selection_witness :
    (2 ≤ 5 ∧ ∀ k, (some 2 : Option ℕ) = some k → 1 ≤ k ∧ k ≤ maxK 5) ∧
    ((∀ k, (some 2 : Option ℕ) = some k →
        optimalK (some 2) = k ∧ kmeansValid (optimalK (some 2)) 5) ∧
      ((some 2 : Option ℕ) = none →
        optimalK (some 2) = 3 ∧ (3 ≤ 5 → kmeansValid (optimalK (some 2)) 5))) := by
  have hhe : ∀ k, (some 2 : Option ℕ) = some k → 1 ≤ k ∧ k ≤ maxK 5 := by
    rintro k hk
    cases hk
    exact ⟨by norm_num, by norm_num [maxK]⟩
  exact ⟨⟨by norm_num, hhe⟩, c2_elbow_selection 5 (some 2) (by norm_num) hhe⟩

/-! ## C1: absent query id -/

/-- C1 counterexample: on the empty snapshot (0 users, so also for 1 user)
the endpoint returns the empty result list for an absent query id instead of
failing with `NotFound` — the `len(users) < 2` early return precedes the
`user_id not in user_ids` check, so absence of a query id is NOT reported as
`NotFound` regardless of snapshot size. -/
theorem c1_counterexample :
    "missing" ∉ ([] : List UserRecord).map UserRecord.uid ∧
    cluster [] "missing" 5 [] = .ok [] ∧
    ClusterResponse.ok [] ≠ ClusterResponse.notFound := by
  refine ⟨by simp, ?_, fun h => ClusterResponse.noConfusion h⟩
  unfold cluster
  rw [if_pos (by simp)]

/-- C1 (amended): if the query id is absent from the snapshot, the call fails
with `NotFound` whenever the snapshot has at least 2 users (whatever cohort
assignment KMeans produced); for snapshots of fewer than 2 users it instead
returns the empty result list, even for an absent id. -/
theorem c1_absent_notFound (users : List UserRecord) (userId : String)
    (topN : ℕ) (labels : List ℕ)
    (habs : userId ∉ users.map UserRecord.uid) :
    (2 ≤ users.length → cluster users userId topN labels = .notFound) ∧
    (users.length < 2 → cluster users userId topN labels = .ok []) := by
  constructor
  · intro h2
    unfold cluster
    rw [if_neg (by omega)]
    exact if_neg habs
  · intro h
    unfold cluster
    rw [if_pos h]

/-- Witness for `c1_absent_notFound`: two concrete users and an absent id. -/
theorem c1_absent_notFound_witness :
    "zz" ∉ [(⟨"a", [], [], .flat [], []⟩ : UserRecord),
            ⟨"b", [], [], .flat [], []⟩].map UserRecord.uid ∧
    cluster [⟨"a", [], [], .flat [], []⟩, ⟨"b", [], [], .flat [], []⟩]
        "zz" 5 [0, 0] = .notFound := by
  have habs : "zz" ∉ [(⟨"a", [], [], .flat [], []⟩ : UserRecord),
      ⟨"b", [], [], .flat [], []⟩].map UserRecord.uid := by simp
  exact ⟨habs,
    (c1_absent_notFound _ "zz" 5 [0, 0] habs).1 (by norm_num)⟩

/-! ## C8: every feature row has the same width -/

/-- C8: for every snapshot, every row of the (scaled) feature matrix has the
same length, equal to |skills vocabulary| + |interests vocabulary| +
|availability vocabulary| + 5; and each raw row is exactly the four segments
[skills one-hot][interests one-hot][availability one-hot][5 personality
scores] in that order. -/
theorem c8_row_width (users : List UserRecord) :
    ((featureMatrix users).map List.length =
      List.replicate users.length
        ((vocabSkills users).length + (vocabInterests users).length +
          (vocabAvail users).length + 5)) ∧
    ((rawMatrix users).map List.length =
      List.replicate users.length
        ((vocabSkills users).length + (vocabInterests users).length +
          (vocabAvail users).length + 5)) ∧
    (∀ u : UserRecord,
      encodeRow (vocabSkills users) (vocabInterests users) (vocabAvail users) u =
        oneHot (vocabSkills users) u.skills
          ++ oneHot (vocabInterests users) u.interests
          ++ oneHot (vocabAvail users) (flatten_availability u)
          ++ big5Vec u) := by
  have hraw : ∀ u : UserRecord,
      (encodeRow (vocabSkills users) (vocabInterests users) (vocabAvail users) u).length =
        (vocabSkills users).length + (vocabInterests users).length +
          (vocabAvail users).length + 5 := fun u => length_encodeRow _ _ _ u
  refine ⟨?_, ?_, fun u => rfl⟩
  · rw [List.eq_replicate_iff]
    constructor
    · simp [featureMatrix, normalizeMatrix, rawMatrix]
    · intro b hb
      simp only [featureMatrix, normalizeMatrix, rawMatrix, List.map_map,
        List.mem_map] at hb
      obtain ⟨u, _, rfl⟩ := hb
      simp only [Function.comp_apply, length_normalizeMatrix_row]
      exact hraw u
  · rw [List.eq_replicate_iff]
    constructor
    · simp [rawMatrix]
    · intro b hb
      simp only [rawMatrix, List.map_map, List.mem_map] at hb
      obtain ⟨u, _, rfl⟩ := hb
      exact hraw u

/-! ## C9: availability flattening -/

/-- C9: the flattening function emits one token `day ++ "_" ++ slot` per slot
of each list-valued day of a dict-shaped availability, one token for a
string-valued day, passes an already-flat list through unchanged, and the same
function is used both to build the availability vocabulary and each user's
one-hot availability segment. -/
theorem c9_flatten_availability :
    (∀ (uid : String) (sk it : List String) (b5 : List (String × ℝ))
        (entries : List (String × AvailValue)) (tok : String),
      tok ∈ flatten_availability ⟨uid, sk, it, .dict entries, b5⟩ ↔
        ∃ e ∈ entries,
          (∃ sl, e.2 = .slots sl ∧ ∃ s ∈ sl, tok = e.1 ++ "_" ++ s) ∨
          (∃ s, e.2 = .single s ∧ tok = e.1 ++ "_" ++ s)) ∧
    (∀ (uid : String) (sk it : List String) (b5 : List (String × ℝ))
        (l : List String),
      flatten_availability ⟨uid, sk, it, .flat l, b5⟩ = l) ∧
    (∀ users : List UserRecord,
      vocabAvail users = sortedVocab (users.flatMap flatten_availability)) ∧
    (∀ (A : List String) (u : UserRecord),
      oneHot A (flatten_availability u) =
        A.map (fun a => if a ∈ flatten_availability u then (1 : ℝ) else 0)) := by
  refine ⟨?_, fun _ _ _ _ _ => rfl, fun _ => rfl, fun _ _ => rfl⟩
  intro uid sk it b5 entries tok
  simp only [flatten_availability, List.mem_flatMap]
  constructor
  · rintro ⟨e, he, htok⟩
    refine ⟨e, he, ?_⟩
    rcases hv : e.2 with sl | s
    · rw [hv] at htok
      simp only [List.mem_map] at htok
      obtain ⟨s, hs, rfl⟩ := htok
      exact Or.inl ⟨sl, rfl, s, hs, rfl⟩
    · rw [hv] at htok
      simp only [List.mem_singleton] at htok
      exact Or.inr ⟨s, rfl, htok⟩
    · rw [hv] at htok
      simp at htok
  · rintro ⟨e, he, (⟨sl, hv, s, hs, rfl⟩ | ⟨s, hv, rfl⟩)⟩
    · exact ⟨e, he, by rw [hv]; exact List.mem_map_of_mem _ hs⟩
    · exact ⟨e, he, by rw [hv]; exact List.mem_singleton_self _⟩

/-! ## C6: the normalizer -/

theorem sum_map_sub_const (xs : List ℝ) (m : ℝ) :
    (xs.map (fun x => x - m)).sum = xs.sum - xs.length * m := by
  induction xs with
  | nil => simp
  | cons a l ih => simp [ih]; ring

theorem sum_map_div_const (xs : List ℝ) (f : ℝ → ℝ) (c : ℝ) :
    (xs.map (fun x => f x / c)).sum = (xs.map f).sum / c := by
  induction xs with
  | nil => simp
  | cons a l ih => simp [ih]; ring

theorem sum_standardize (xs : List ℝ) : (standardize xs).sum = 0 := by
  rcases eq_or_ne xs.length 0 with h | h
  · rw [List.length_eq_zero.mp h]
    simp [standardize]
  · unfold standardize
    rw [sum_map_div_const xs (fun x => x - mean xs) (scaleOf xs),
      sum_map_sub_const]
    have : (xs.length : ℝ) * mean xs = xs.sum := by
      unfold mean
      field_simp
    rw [this, sub_self, zero_div]

theorem mean_standardize (xs : List ℝ) : mean (standardize xs) = 0 := by
  unfold mean
  rw [sum_standardize, zero_div]

theorem popVar_nonneg (xs : List ℝ) : 0 ≤ popVar xs := by
  unfold popVar
  apply div_nonneg
  · apply List.sum_nonneg
    intro x hx
    simp only [List.mem_map] at hx
    obtain ⟨y, _, rfl⟩ := hx
    positivity
  · positivity

theorem scaleOf_ne_zero (xs : List ℝ) : scaleOf xs ≠ 0 := by
  unfold scaleOf
  split
  · norm_num
  · next h =>
      exact ne_of_gt (Real.sqrt_pos.mpr (lt_of_le_of_ne (popVar_nonneg xs) (Ne.symm h)))

theorem sq_scaleOf (xs : List ℝ) (h : popVar xs ≠ 0) :
    scaleOf xs * scaleOf xs = popVar xs := by
  unfold scaleOf
  rw [if_neg h]
  exact Real.mul_self_sqrt (popVar_nonneg xs)

theorem eq_mean_of_popVar_zero (xs : List ℝ) (hlen : xs.length ≠ 0)
    (h : popVar xs = 0) : ∀ x ∈ xs, x = mean xs := by
  have hnn : ∀ y ∈ xs.map (fun x => (x - mean xs) ^ 2), 0 ≤ y := by
    intro y hy
    simp only [List.mem_map] at hy
    obtain ⟨x, _, rfl⟩ := hy
    positivity
  have hsum : (xs.map (fun x => (x - mean xs) ^ 2)).sum = 0 := by
    unfold popVar at h
    rcases div_eq_zero_iff.mp h with h0 | h0
    · exact h0
    · exact absurd h0 (by positivity)
  intro x hx
  have hmem : (x - mean xs) ^ 2 ∈ xs.map (fun x => (x - mean xs) ^ 2) :=
    List.mem_map_of_mem _ hx
  have hle : (x - mean xs) ^ 2 ≤ 0 := hsum ▸ List.single_le_sum hnn _ hmem
  have : (x - mean xs) ^ 2 = 0 := le_antisymm hle (by positivity)
  have := pow_eq_zero_iff (n := 2) (by norm_num) |>.mp this
  linarith [sub_eq_zero.mp this]

theorem standardize_of_popVar_zero (xs : List ℝ) (hlen : xs.length ≠ 0)
    (h : popVar xs = 0) : standardize xs = List.replicate xs.length 0 := by
  rw [List.eq_replicate_iff]
  refine ⟨by simp [standardize], ?_⟩
  intro b hb
  simp only [standardize, List.mem_map] at hb
  obtain ⟨x, hx, rfl⟩ := hb
  rw [eq_mean_of_popVar_zero xs hlen h x hx, sub_self, zero_div]

theorem popVar_standardize (xs : List ℝ) (hlen : xs.length ≠ 0)
    (h : popVar xs ≠ 0) : popVar (standardize xs) = 1 := by
  have hs := scaleOf_ne_zero xs
  have hsq := sq_scaleOf xs h
  unfold popVar
  rw [mean_standardize]
  have hlen2 : (standardize xs).length = xs.length := by simp [standardize]
  rw [hlen2]
  have hmap : (standardize xs).map (fun x => (x - 0) ^ 2) =
      xs.map (fun x => ((x - mean xs) ^ 2) / popVar xs) := by
    unfold standardize
    rw [List.map_map]
    apply List.map_congr_left
    intro a _
    simp only [Function.comp_apply, sub_zero, div_pow]
    rw [← hsq]
    ring_nf
  rw [hmap, sum_map_div_const]
  unfold popVar
  have hl : (xs.length : ℝ) ≠ 0 := Nat.cast_ne_zero.mpr hlen
  have hsumne : (xs.map (fun x => (x - mean xs) ^ 2)).sum ≠ 0 := by
    unfold popVar at h
    intro hcon
    rw [hcon, zero_div] at h
    exact h rfl
  field_simp

theorem column_normalizeMatrix (M : List (List ℝ)) (c : ℕ)
    (hc : ∀ row ∈ M, c < row.length) :
    column (normalizeMatrix M) c = standardize (column M c) := by
  unfold column normalizeMatrix standardize
  rw [List.map_map, List.map_map]
  apply List.map_congr_left
  intro row hrow
  simp only [Function.comp_apply]
  have hlen : c < (((List.range row.length).zip row).map
      (fun p => normalizeEntry M p.1 p.2)).length := by
    simpa using hc row hrow
  rw [List.getD_eq_getElem _ _ hlen]
  simp only [List.getElem_map, List.getElem_zip, List.getElem_range]
  rw [List.getD_eq_getElem _ _ (hc row hrow)]
  rfl

/-- C6: the normalizer standardizes every column of the feature matrix over
the current snapshot: the standardized column has mean 0; if the column had
nonzero (population) variance its standardized variance is 1; a zero-variance
column maps to all zeros; and the divisor is never zero, so no entry is ever
the result of a division by zero (no NaN/Inf). -/
theorem c6_normalizer (M : List (List ℝ)) (c : ℕ) (h2 : 2 ≤ M.length)
    (hc : ∀ row ∈ M, c < row.length) :
    column (normalizeMatrix M) c = standardize (column M c) ∧
    mean (standardize (column M c)) = 0 ∧
    (popVar (column M c) ≠ 0 → popVar (standardize (column M c)) = 1) ∧
    (popVar (column M c) = 0 →
      standardize (column M c) = List.replicate M.length 0) ∧
    scaleOf (column M c) ≠ 0 := by
  have hlen : (column M c).length = M.length := by simp [column]
  have hne : (column M c).length ≠ 0 := by omega
  refine ⟨column_normalizeMatrix M c hc, mean_standardize _, ?_, ?_, scaleOf_ne_zero _⟩
  · exact popVar_standardize _ hne
  · intro h0
    rw [standardize_of_popVar_zero _ hne h0, hlen]

/-- Witness for `c6_normalizer`: the 2-snapshot one-column matrix
`[[0], [2]]`. -/
theorem c6_normalizer_witness :
    (2 ≤ ([[(0 : ℝ)], [2]] : List (List ℝ)).length ∧
      ∀ row ∈ ([[(0 : ℝ)], [2]] : List (List ℝ)), 0 < row.length) ∧
    (column (normalizeMatrix [[(0 : ℝ)], [2]]) 0 =
        standardize (column [[(0 : ℝ)], [2]] 0) ∧
      mean (standardize (column [[(0 : ℝ)], [2]] 0)) = 0 ∧
      (popVar (column [[(0 : ℝ)], [2]] 0) ≠ 0 →
        popVar (standardize (column [[(0 : ℝ)], [2]] 0)) = 1) ∧
      (popVar (column [[(0 : ℝ)], [2]] 0) = 0 →
        standardize (column [[(0 : ℝ)], [2]] 0) =
          List.replicate ([[(0 : ℝ)], [2]] : List (List ℝ)).length 0) ∧
      scaleOf (column [[(0 : ℝ)], [2]] 0) ≠ 0) := by
  have hc : ∀ row ∈ ([[(0 : ℝ)], [2]] : List (List ℝ)), 0 < row.length := by
    intro row hrow
    simp only [List.mem_cons, List.not_mem_nil, or_false] at hrow
    rcases hrow with rfl | rfl <;> simp
  exact ⟨⟨by norm_num, hc⟩, c6_normalizer _ 0 (by norm_num) hc⟩

/-! ## C7: two-run determinism -/

/-- C7: the whole pipeline (encode → normalize → cluster → rank) is a pure
function of the snapshot: two runs on equal snapshots with equal query, equal
`top_n` and the same (fixed-seed, hence input-determined) KMeans label
assignment produce equal raw matrices, equal scaled matrices and identical
responses — there is no hidden per-run state. -/
theorem c7_two_runs (users users' : List UserRecord) (uid uid' : String)
    (topN topN' : ℕ) (labels labels' : List ℕ)
    (hu : users = users') (hq : uid = uid') (ht : topN = topN')
    (hl : labels = labels') :
    rawMatrix users = rawMatrix users' ∧
    featureMatrix users = featureMatrix users' ∧
    cluster users uid topN labels = cluster users' uid' topN' labels' := by
  subst hu hq ht hl
  exact ⟨rfl, rfl, rfl⟩

/-- Witness for `c7_two_runs` at a concrete snapshot. -/
theorem c7_two_runs_witness :
    rawMatrix [(⟨"a", [], [], .flat [], []⟩ : UserRecord)] =
      rawMatrix [(⟨"a", [], [], .flat [], []⟩ : UserRecord)] ∧
    featureMatrix [(⟨"a", [], [], .flat [], []⟩ : UserRecord)] =
      featureMatrix [(⟨"a", [], [], .flat [], []⟩ : UserRecord)] ∧
    cluster [(⟨"a", [], [], .flat [], []⟩ : UserRecord)] "a" 5 [0] =
      cluster [(⟨"a", [], [], .flat [], []⟩ : UserRecord)] "a" 5 [0] :=
  c7_two_runs _ _ _ _ _ _ _ _ rfl rfl rfl rfl

/-! ## C4: similarity-to-score rescaling and rounding -/

theorem round_mono_real {x y : ℝ} (h : x ≤ y) : round x ≤ round y := by
  rw [round_eq, round_eq]
  exact Int.floor_le_floor (by linarith)

theorem round2_rescale_mono {x y : ℝ} (h : x ≤ y) :
    round2 (rescale x) ≤ round2 (rescale y) := by
  unfold round2 rescale
  have hr : round (100 * ((x + 1) / 2 * 100)) ≤ round (100 * ((y + 1) / 2 * 100)) :=
    round_mono_real (by linarith)
  have hcast : ((round (100 * ((x + 1) / 2 * 100)) : ℤ) : ℝ) ≤
      ((round (100 * ((y + 1) / 2 * 100)) : ℤ) : ℝ) := by exact_mod_cast hr
  linarith

/-- C4 counterexample: the rescaling+rounding map is NOT strictly monotonic.
With `a = (1,0)`, `b = (300019999, 399960000)` (a Pythagorean pair with
hypotenuse 499980001) and `c = (3,4)` we have
`cos(a,b) = 300019999/499980001 > 3/5 = cos(a,c)`, yet both similarities
rescale and round to exactly the same 2-decimal score 80. -/
theorem c4_counterexample :
    cosSklearn [(1 : ℝ), 0] [3, 4] <
      cosSklearn [(1 : ℝ), 0] [300019999, 399960000] ∧
    round2 (rescale (cosSklearn [(1 : ℝ), 0] [3, 4])) =
      round2 (rescale (cosSklearn [(1 : ℝ), 0] [300019999, 399960000])) := by
  have haa : dotR [(1 : ℝ), 0] [(1 : ℝ), 0] = 1 := by
    simp [dotR]
  have hsaa : Real.sqrt (dotR [(1 : ℝ), 0] [(1 : ℝ), 0]) = 1 := by
    rw [haa, Real.sqrt_one]
  have hc : cosSklearn [(1 : ℝ), 0] [3, 4] = 3 / 5 := by
    unfold cosSklearn
    rw [hsaa]
    have hbb : dotR [(3 : ℝ), 4] [(3 : ℝ), 4] = 5 ^ 2 := by
      simp [dotR]; norm_num
    rw [show dotR [(1 : ℝ), 0] [3, 4] = 3 by simp [dotR], hbb,
      Real.sqrt_sq (by norm_num : (0 : ℝ) ≤ 5)]
    simp [nz]
  have hb : cosSklearn [(1 : ℝ), 0] [300019999, 399960000] =
      300019999 / 499980001 := by
    unfold cosSklearn
    rw [hsaa]
    have hbb : dotR [(300019999 : ℝ), 399960000] [(300019999 : ℝ), 399960000] =
        499980001 ^ 2 := by
      simp [dotR]; norm_num
    rw [show dotR [(1 : ℝ), 0] [300019999, 399960000] = 300019999 by simp [dotR],
      hbb, Real.sqrt_sq (by norm_num : (0 : ℝ) ≤ 499980001)]
    simp [nz]
  constructor
  · rw [hc, hb]
    norm_num
  · rw [hc, hb]
    unfold round2 rescale
    have h1 : round ((100 : ℝ) * ((3 / 5 + 1) / 2 * 100)) = 8000 := by
      rw [show (100 : ℝ) * ((3 / 5 + 1) / 2 * 100) = ((8000 : ℤ) : ℝ) by norm_num,
        round_intCast]
    have h2 : round ((100 : ℝ) * ((300019999 / 499980001 + 1) / 2 * 100)) = 8000 := by
      rw [round_eq]
      refine Int.floor_eq_iff.mpr ⟨?_, ?_⟩ <;> norm_num
    rw [h1, h2]

/-- C4 (amended): the rescaling `(sim + 1)/2·100` rounded to 2 decimals is
weakly monotonic in the similarity: `cos(a,c) < cos(a,b)` implies the
rescaled score of `(a,b)` is greater than or equal to — but, by
`c4_counterexample`, not always strictly greater than — that of `(a,c)`. -/
theorem c4_rescale_weak_mono (a b c : List ℝ)
    (h : cosSklearn a c < cosSklearn a b) :
    round2 (rescale (cosSklearn a c)) ≤ round2 (rescale (cosSklearn a b)) :=
  round2_rescale_mono (le_of_lt h)

/-- Witness for `c4_rescale_weak_mono`: orthogonal vs identical unit vectors. -/
theorem c4_rescale_weak_mono_witness :
    cosSklearn [(1 : ℝ), 0] [0, 1] < cosSklearn [(1 : ℝ), 0] [1, 0] ∧
    round2 (rescale (cosSklearn [(1 : ℝ), 0] [0, 1])) ≤
      round2 (rescale (cosSklearn [(1 : ℝ), 0] [1, 0])) := by
  have h0 : cosSklearn [(1 : ℝ), 0] [0, 1] = 0 := by
    unfold cosSklearn
    rw [show dotR [(1 : ℝ), 0] [0, 1] = 0 by simp [dotR]]
    simp
  have h1 : cosSklearn [(1 : ℝ), 0] [1, 0] = 1 := by
    unfold cosSklearn
    rw [show dotR [(1 : ℝ), 0] [(1 : ℝ), 0] = 1 by simp [dotR], Real.sqrt_one]
    simp [nz]
  have h : cosSklearn [(1 : ℝ), 0] [0, 1] < cosSklearn [(1 : ℝ), 0] [1, 0] := by
    rw [h0, h1]; norm_num
  exact ⟨h, c4_rescale_weak_mono _ _ _ h⟩

/-! ## C3: two identical users -/

theorem zip_self_eq_map (x : List ℝ) : x.zip x = x.map (fun a => (a, a)) := by
  induction x with
  | nil => rfl
  | cons a l ih => simp [List.zip_cons_cons, ih]

theorem dotR_self_nonneg (x : List ℝ) : 0 ≤ dotR x x := by
  unfold dotR
  rw [zip_self_eq_map, List.map_map]
  apply List.sum_nonneg
  intro y hy
  simp only [List.mem_map, Function.comp_apply] at hy
  obtain ⟨a, _, rfl⟩ := hy
  exact mul_self_nonneg a

theorem cosSklearn_self (x : List ℝ) (h : dotR x x ≠ 0) : cosSklearn x x = 1 := by
  unfold cosSklearn
  have hpos : 0 < dotR x x := lt_of_le_of_ne (dotR_self_nonneg x) (Ne.symm h)
  have hs : Real.sqrt (dotR x x) ≠ 0 := ne_of_gt (Real.sqrt_pos.mpr hpos)
  rw [nz, if_neg hs, Real.mul_self_sqrt (dotR_self_nonneg x)]
  exact div_self h

theorem round2_rescale_one : round2 (rescale 1) = 100 := by
  unfold round2 rescale
  rw [show (100 : ℝ) * ((1 + 1) / 2 * 100) = ((10000 : ℤ) : ℝ) by norm_num,
    round_intCast]
  norm_num

theorem round2_rescale_zero : round2 (rescale 0) = 50 := by
  unfold round2 rescale
  rw [show (100 : ℝ) * ((0 + 1) / 2 * 100) = ((5000 : ℤ) : ℝ) by norm_num,
    round_intCast]
  norm_num

/-- C3 (amended): two users with identical skills, interests, availability and
personality fields get identical feature rows (hence identical standardized
vectors), and whenever such a shared vector is nonzero (`x·x ≠ 0`) its cosine
self-similarity rescales to exactly 100.00; when the snapshot standardizes the
shared row to the zero vector — e.g. when the two identical users are the
entire snapshot — sklearn's zero-norm guard yields similarity 0, i.e. a score
of 50.0 (see `c3_counterexample`). -/
theorem c3_identical_pair (S I A : List String) (u v : UserRecord)
    (hs : u.skills = v.skills) (hi : u.interests = v.interests)
    (ha : u.availability = v.availability) (hb : u.big5 = v.big5) :
    encodeRow S I A u = encodeRow S I A v ∧
    ∀ x : List ℝ, dotR x x ≠ 0 → round2 (rescale (cosSklearn x x)) = 100 := by
  constructor
  · unfold encodeRow flatten_availability
    rw [hs, hi, ha, hb]
  · intro x hx
    rw [cosSklearn_self x hx, round2_rescale_one]

/-- Witness for `c3_identical_pair`: two records equal in all four feature
fields, and the nonzero vector `[1, 0]`. -/
theorem c3_identical_pair_witness :
    encodeRow [] [] [] ⟨"u1", ["s"], [], .flat [], []⟩ =
      encodeRow [] [] [] ⟨"u2", ["s"], [], .flat [], []⟩ ∧
    dotR [(1 : ℝ), 0] [(1 : ℝ), 0] ≠ 0 ∧
    round2 (rescale (cosSklearn [(1 : ℝ), 0] [(1 : ℝ), 0])) = 100 := by
  have hd : dotR [(1 : ℝ), 0] [(1 : ℝ), 0] ≠ 0 := by
    rw [show dotR [(1 : ℝ), 0] [(1 : ℝ), 0] = 1 by simp [dotR]]
    norm_num
  have h := c3_identical_pair [] [] [] ⟨"u1", ["s"], [], .flat [], []⟩
    ⟨"u2", ["s"], [], .flat [], []⟩ rfl rfl rfl rfl
  exact ⟨h.1, hd, h.2 [(1 : ℝ), 0] hd⟩

/-- First member of the identical pair of the C3 counterexample snapshot. -/
def pairUser1 : UserRecord := ⟨"u1", [], [], .flat [], []⟩

/-- Second member of the identical pair of the C3 counterexample snapshot. -/
def pairUser2 : UserRecord := ⟨"u2", [], [], .flat [], []⟩

theorem mean_pair (x : ℝ) : mean [x, x] = x := by
  simp [mean]

theorem popVar_pair (x : ℝ) : popVar [x, x] = 0 := by
  simp [popVar, mean_pair]

theorem scaleOf_pair (x : ℝ) : scaleOf [x, x] = 1 := by
  simp [scaleOf, popVar_pair]

theorem normalizeEntry_pair (M : List (List ℝ)) (c : ℕ) (x : ℝ)
    (h : column M c = [x, x]) : normalizeEntry M c x = 0 := by
  unfold normalizeEntry
  rw [h, mean_pair, scaleOf_pair]
  simp

theorem pair_X : featureMatrix [pairUser1, pairUser2] =
    [[0, 0, 0, 0, 0], [(0 : ℝ), 0, 0, 0, 0]] := by
  show normalizeMatrix (rawMatrix [pairUser1, pairUser2]) = _
  rw [show rawMatrix [pairUser1, pairUser2] =
    [[(1 : ℝ)/2, 1/2, 1/2, 1/2, 1/2], [1/2, 1/2, 1/2, 1/2, 1/2]] from rfl]
  have hcol : ∀ c : ℕ, c < 5 →
      column [[(1 : ℝ)/2, 1/2, 1/2, 1/2, 1/2], [1/2, 1/2, 1/2, 1/2, 1/2]] c =
        [(1 : ℝ)/2, 1/2] := by
    intro c hc
    interval_cases c <;> rfl
  have h0 := normalizeEntry_pair _ 0 _ (hcol 0 (by norm_num))
  have h1 := normalizeEntry_pair _ 1 _ (hcol 1 (by norm_num))
  have h2 := normalizeEntry_pair _ 2 _ (hcol 2 (by norm_num))
  have h3 := normalizeEntry_pair _ 3 _ (hcol 3 (by norm_num))
  have h4 := normalizeEntry_pair _ 4 _ (hcol 4 (by norm_num))
  unfold normalizeMatrix
  simp only [List.map_cons, List.map_nil, List.length_cons, List.length_nil]
  rw [show List.range (0 + 1 + 1 + 1 + 1 + 1) = [0, 1, 2, 3, 4] from rfl]
  simp only [List.zip_cons_cons, List.zip_nil_right, List.map_cons, List.map_nil]
  rw [h0, h1, h2, h3, h4]

theorem cosSklearn_zero5 :
    cosSklearn [(0 : ℝ), 0, 0, 0, 0] [(0 : ℝ), 0, 0, 0, 0] = 0 := by
  unfold cosSklearn
  rw [show dotR [(0 : ℝ), 0, 0, 0, 0] [(0 : ℝ), 0, 0, 0, 0] = 0 by simp [dotR]]
  simp [nz]

/-- C3 counterexample: a snapshot consisting of exactly two users with
identical skills, interests, availability and personality scores.  Every
feature column is constant, so both standardized vectors are zero; sklearn's
cosine of two zero vectors is 0, which rescales to 50.0 — NOT 100.00 — if
KMeans puts the pair in one cohort, and to the empty result list if it splits
them.  Either way no result carries similarity 100. -/
theorem c3_counterexample :
    pairUser1.skills = pairUser2.skills ∧
    pairUser1.interests = pairUser2.interests ∧
    pairUser1.availability = pairUser2.availability ∧
    pairUser1.big5 = pairUser2.big5 ∧
    cluster [pairUser1, pairUser2] "u1" 5 [0, 0] =
      .ok [⟨"u2", 50⟩] ∧
    cluster [pairUser1, pairUser2] "u1" 5 [0, 1] = .ok [] ∧
    (50 : ℝ) ≠ 100 := by
  refine ⟨rfl, rfl, rfl, rfl, ?_, rfl, by norm_num⟩
  have step : cluster [pairUser1, pairUser2] "u1" 5 [0, 0] =
      .ok (rankCandidates [pairUser1, pairUser2] 5
        [(cosSklearn ((featureMatrix [pairUser1, pairUser2]).getD 0 [])
            ((featureMatrix [pairUser1, pairUser2]).getD 1 []), 1)]) := rfl
  rw [step, pair_X]
  show ClusterResponse.ok [⟨"u2", round2 (rescale (cosSklearn
    [(0 : ℝ), 0, 0, 0, 0] [(0 : ℝ), 0, 0, 0, 0]))⟩] = _
  rw [cosSklearn_zero5, round2_rescale_zero]
/-! ## C5: order of the returned match results -/

/-- The 12-user snapshot of the C5 counterexample: empty skills, interests
and availability, personality scores all inside [0, 1], chosen so each
feature column standardizes by an exact rational scale and the standardized
matrix is exactly `z12` below.  Users 1 ("a") and 2 ("b") have the distinct
cosine similarities 3/5 and 300019999/499980001 to the query user 0 ("q"),
both of which rescale and round to the same displayed score 80.0. -/
noncomputable def users12 : List UserRecord :=
  [⟨"q", [], [], .flat [], [("big5_O", (3999760015199680008 : ℝ)/4546204176154015303), ("big5_C", (1 : ℝ)/2), ("big5_E", (1 : ℝ)/2), ("big5_A", (1 : ℝ)/2), ("big5_N", (1 : ℝ)/2)]⟩,
   ⟨"a", [], [], .flat [], [("big5_O", (3499800012399760006 : ℝ)/4546204176154015303), ("big5_C", (15176864031417710899 : ℝ)/20354528006837021758), ("big5_E", (1 : ℝ)/2), ("big5_A", (1 : ℝ)/2), ("big5_N", (1 : ℝ)/2)]⟩,
   ⟨"b", [], [], .flat [], [("big5_O", (3499880005200079998 : ℝ)/4546204176154015303), ("big5_C", (15176564033417510879 : ℝ)/20354528006837021758), ("big5_E", (1 : ℝ)/2), ("big5_A", (1 : ℝ)/2), ("big5_N", (1 : ℝ)/2)]⟩,
   ⟨"d", [], [], .flat [], [("big5_O", (0 : ℝ)), ("big5_C", (178363945420310859 : ℝ)/20354528006837021758), ("big5_E", (1 : ℝ)/2), ("big5_A", (1 : ℝ)/2), ("big5_N", (1 : ℝ)/2)]⟩,
   ⟨"e1", [], [], .flat [], [("big5_O", (3097121615659074423 : ℝ)/4546204176154015303), ("big5_C", (8148697300213923388 : ℝ)/10177264003418510879), ("big5_E", (1 : ℝ)), ("big5_A", (1 : ℝ)), ("big5_N", (1 : ℝ))]⟩,
   ⟨"f1", [], [], .flat [], [("big5_O", (2402598400740685583 : ℝ)/4546204176154015303), ("big5_C", (2028566703204587491 : ℝ)/10177264003418510879), ("big5_E", (0 : ℝ)), ("big5_A", (0 : ℝ)), ("big5_N", (0 : ℝ))]⟩,
   ⟨"e2", [], [], .flat [], [("big5_O", (16752340783411147011 : ℝ)/22731020880770076515), ("big5_C", (12638816201074158279 : ℝ)/20354528006837021758), ("big5_E", (3 : ℝ)/4), ("big5_A", (3 : ℝ)/4), ("big5_N", (3 : ℝ)/4)]⟩,
   ⟨"f2", [], [], .flat [], [("big5_O", (10746259298587653019 : ℝ)/22731020880770076515), ("big5_C", (7715711805762863479 : ℝ)/20354528006837021758), ("big5_E", (1 : ℝ)/4), ("big5_A", (1 : ℝ)/4), ("big5_N", (1 : ℝ)/4)]⟩,
   ⟨"e3", [], [], .flat [], [("big5_O", (1 : ℝ)), ("big5_C", (1 : ℝ)), ("big5_E", (3 : ℝ)/4), ("big5_A", (3 : ℝ)/4), ("big5_N", (3 : ℝ)/4)]⟩,
   ⟨"f3", [], [], .flat [], [("big5_O", (953515840245744703 : ℝ)/4546204176154015303), ("big5_C", (0 : ℝ)), ("big5_E", (1 : ℝ)/4), ("big5_A", (1 : ℝ)/4), ("big5_N", (1 : ℝ)/4)]⟩,
   ⟨"e4", [], [], .flat [], [("big5_O", (17426482978418703637 : ℝ)/22731020880770076515), ("big5_C", (13678986719929148069 : ℝ)/20354528006837021758), ("big5_E", (1 : ℝ)/2), ("big5_A", (1 : ℝ)/2), ("big5_N", (1 : ℝ)/2)]⟩,
   ⟨"f4", [], [], .flat [], [("big5_O", (10072117103580096393 : ℝ)/22731020880770076515), ("big5_C", (6675541286907873689 : ℝ)/20354528006837021758), ("big5_E", (1 : ℝ)/2), ("big5_A", (1 : ℝ)/2), ("big5_N", (1 : ℝ)/2)]⟩]

/-- A cohort assignment for `users12` under `k = fixedK 12 = 3`: the query
user and users 1, 2 share cohort 0. -/
def labels12 : List ℕ := [0, 0, 0, 1, 1, 1, 1, 2, 2, 2, 2, 2]

/-- The standardized feature matrix of `users12` (proved in `x12_eval`). -/
noncomputable def z12 : List (List ℝ) :=
  [[(1 : ℝ), (0 : ℝ), (0 : ℝ), (0 : ℝ), (0 : ℝ)],
   [(3 : ℝ)/5, (4 : ℝ)/5, (0 : ℝ), (0 : ℝ), (0 : ℝ)],
   [(300019999 : ℝ)/499980001, (399960000 : ℝ)/499980001, (0 : ℝ), (0 : ℝ), (0 : ℝ)],
   [(-5499940003 : ℝ)/2499900005, (-3999720004 : ℝ)/2499900005, (0 : ℝ), (0 : ℝ), (0 : ℝ)],
   [(69452321491838884 : ℝ)/249980001399960001, (6120130597009335897 : ℝ)/6249500034999000025, (2 : ℝ), (2 : ℝ), (2 : ℝ)],
   [(-69452321491838884 : ℝ)/249980001399960001, (-6120130597009335897 : ℝ)/6249500034999000025, (-2 : ℝ), (-2 : ℝ), (-2 : ℝ)],
   [(3003040742411746996 : ℝ)/6249500034999000025, (98462087906225896 : ℝ)/249980001399960001, (1 : ℝ), (1 : ℝ), (1 : ℝ)],
   [(-3003040742411746996 : ℝ)/6249500034999000025, (-98462087906225896 : ℝ)/249980001399960001, (-1 : ℝ), (-1 : ℝ), (-1 : ℝ)],
   [(359268833590827060 : ℝ)/249980001399960001, (10177264003418510879 : ℝ)/6249500034999000025, (1 : ℝ), (1 : ℝ), (1 : ℝ)],
   [(-359268833590827060 : ℝ)/249980001399960001, (-10177264003418510879 : ℝ)/6249500034999000025, (-1 : ℝ), (-1 : ℝ), (-1 : ℝ)],
   [(3677182937419303622 : ℝ)/6249500034999000025, (700344543302127438 : ℝ)/1249900006999800005, (0 : ℝ), (0 : ℝ), (0 : ℝ)],
   [(-3677182937419303622 : ℝ)/6249500034999000025, (-700344543302127438 : ℝ)/1249900006999800005, (0 : ℝ), (0 : ℝ), (0 : ℝ)]]

theorem raw_users12 : rawMatrix users12 =
  [[(3999760015199680008 : ℝ)/4546204176154015303, (1 : ℝ)/2, (1 : ℝ)/2, (1 : ℝ)/2, (1 : ℝ)/2],
   [(3499800012399760006 : ℝ)/4546204176154015303, (15176864031417710899 : ℝ)/20354528006837021758, (1 : ℝ)/2, (1 : ℝ)/2, (1 : ℝ)/2],
   [(3499880005200079998 : ℝ)/4546204176154015303, (15176564033417510879 : ℝ)/20354528006837021758, (1 : ℝ)/2, (1 : ℝ)/2, (1 : ℝ)/2],
   [(0 : ℝ), (178363945420310859 : ℝ)/20354528006837021758, (1 : ℝ)/2, (1 : ℝ)/2, (1 : ℝ)/2],
   [(3097121615659074423 : ℝ)/4546204176154015303, (8148697300213923388 : ℝ)/10177264003418510879, (1 : ℝ), (1 : ℝ), (1 : ℝ)],
   [(2402598400740685583 : ℝ)/4546204176154015303, (2028566703204587491 : ℝ)/10177264003418510879, (0 : ℝ), (0 : ℝ), (0 : ℝ)],
   [(16752340783411147011 : ℝ)/22731020880770076515, (12638816201074158279 : ℝ)/20354528006837021758, (3 : ℝ)/4, (3 : ℝ)/4, (3 : ℝ)/4],
   [(10746259298587653019 : ℝ)/22731020880770076515, (7715711805762863479 : ℝ)/20354528006837021758, (1 : ℝ)/4, (1 : ℝ)/4, (1 : ℝ)/4],
   [(1 : ℝ), (1 : ℝ), (3 : ℝ)/4, (3 : ℝ)/4, (3 : ℝ)/4],
   [(953515840245744703 : ℝ)/4546204176154015303, (0 : ℝ), (1 : ℝ)/4, (1 : ℝ)/4, (1 : ℝ)/4],
   [(17426482978418703637 : ℝ)/22731020880770076515, (13678986719929148069 : ℝ)/20354528006837021758, (1 : ℝ)/2, (1 : ℝ)/2, (1 : ℝ)/2],
   [(10072117103580096393 : ℝ)/22731020880770076515, (6675541286907873689 : ℝ)/20354528006837021758, (1 : ℝ)/2, (1 : ℝ)/2, (1 : ℝ)/2]] := rfl

theorem m12_col0 : column
  [[(3999760015199680008 : ℝ)/4546204176154015303, (1 : ℝ)/2, (1 : ℝ)/2, (1 : ℝ)/2, (1 : ℝ)/2],
   [(3499800012399760006 : ℝ)/4546204176154015303, (15176864031417710899 : ℝ)/20354528006837021758, (1 : ℝ)/2, (1 : ℝ)/2, (1 : ℝ)/2],
   [(3499880005200079998 : ℝ)/4546204176154015303, (15176564033417510879 : ℝ)/20354528006837021758, (1 : ℝ)/2, (1 : ℝ)/2, (1 : ℝ)/2],
   [(0 : ℝ), (178363945420310859 : ℝ)/20354528006837021758, (1 : ℝ)/2, (1 : ℝ)/2, (1 : ℝ)/2],
   [(3097121615659074423 : ℝ)/4546204176154015303, (8148697300213923388 : ℝ)/10177264003418510879, (1 : ℝ), (1 : ℝ), (1 : ℝ)],
   [(2402598400740685583 : ℝ)/4546204176154015303, (2028566703204587491 : ℝ)/10177264003418510879, (0 : ℝ), (0 : ℝ), (0 : ℝ)],
   [(16752340783411147011 : ℝ)/22731020880770076515, (12638816201074158279 : ℝ)/20354528006837021758, (3 : ℝ)/4, (3 : ℝ)/4, (3 : ℝ)/4],
   [(10746259298587653019 : ℝ)/22731020880770076515, (7715711805762863479 : ℝ)/20354528006837021758, (1 : ℝ)/4, (1 : ℝ)/4, (1 : ℝ)/4],
   [(1 : ℝ), (1 : ℝ), (3 : ℝ)/4, (3 : ℝ)/4, (3 : ℝ)/4],
   [(953515840245744703 : ℝ)/4546204176154015303, (0 : ℝ), (1 : ℝ)/4, (1 : ℝ)/4, (1 : ℝ)/4],
   [(17426482978418703637 : ℝ)/22731020880770076515, (13678986719929148069 : ℝ)/20354528006837021758, (1 : ℝ)/2, (1 : ℝ)/2, (1 : ℝ)/2],
   [(10072117103580096393 : ℝ)/22731020880770076515, (6675541286907873689 : ℝ)/20354528006837021758, (1 : ℝ)/2, (1 : ℝ)/2, (1 : ℝ)/2]] 0 =
  [(3999760015199680008 : ℝ)/4546204176154015303, (3499800012399760006 : ℝ)/4546204176154015303, (3499880005200079998 : ℝ)/4546204176154015303, (0 : ℝ), (3097121615659074423 : ℝ)/4546204176154015303, (2402598400740685583 : ℝ)/4546204176154015303, (16752340783411147011 : ℝ)/22731020880770076515, (10746259298587653019 : ℝ)/22731020880770076515, (1 : ℝ), (953515840245744703 : ℝ)/4546204176154015303, (17426482978418703637 : ℝ)/22731020880770076515, (10072117103580096393 : ℝ)/22731020880770076515] := rfl

theorem m12_mean0 : mean
  [(3999760015199680008 : ℝ)/4546204176154015303, (3499800012399760006 : ℝ)/4546204176154015303, (3499880005200079998 : ℝ)/4546204176154015303, (0 : ℝ), (3097121615659074423 : ℝ)/4546204176154015303, (2402598400740685583 : ℝ)/4546204176154015303, (16752340783411147011 : ℝ)/22731020880770076515, (10746259298587653019 : ℝ)/22731020880770076515, (1 : ℝ), (953515840245744703 : ℝ)/4546204176154015303, (17426482978418703637 : ℝ)/22731020880770076515, (10072117103580096393 : ℝ)/22731020880770076515] = (2749860008199880003 : ℝ)/4546204176154015303 := by
  norm_num [mean]

theorem m12_var0 : popVar
  [(3999760015199680008 : ℝ)/4546204176154015303, (3499800012399760006 : ℝ)/4546204176154015303, (3499880005200079998 : ℝ)/4546204176154015303, (0 : ℝ), (3097121615659074423 : ℝ)/4546204176154015303, (2402598400740685583 : ℝ)/4546204176154015303, (16752340783411147011 : ℝ)/22731020880770076515, (10746259298587653019 : ℝ)/22731020880770076515, (1 : ℝ), (953515840245744703 : ℝ)/4546204176154015303, (17426482978418703637 : ℝ)/22731020880770076515, (10072117103580096393 : ℝ)/22731020880770076515] = ((1249900006999800005 : ℝ)/4546204176154015303) ^ 2 := by
  unfold popVar
  rw [m12_mean0]
  norm_num

theorem m12_scale0 : scaleOf
  [(3999760015199680008 : ℝ)/4546204176154015303, (3499800012399760006 : ℝ)/4546204176154015303, (3499880005200079998 : ℝ)/4546204176154015303, (0 : ℝ), (3097121615659074423 : ℝ)/4546204176154015303, (2402598400740685583 : ℝ)/4546204176154015303, (16752340783411147011 : ℝ)/22731020880770076515, (10746259298587653019 : ℝ)/22731020880770076515, (1 : ℝ), (953515840245744703 : ℝ)/4546204176154015303, (17426482978418703637 : ℝ)/22731020880770076515, (10072117103580096393 : ℝ)/22731020880770076515] = (1249900006999800005 : ℝ)/4546204176154015303 := by
  unfold scaleOf
  rw [m12_var0, if_neg (by norm_num), Real.sqrt_sq (by norm_num)]

theorem m12_col1 : column
  [[(3999760015199680008 : ℝ)/4546204176154015303, (1 : ℝ)/2, (1 : ℝ)/2, (1 : ℝ)/2, (1 : ℝ)/2],
   [(3499800012399760006 : ℝ)/4546204176154015303, (15176864031417710899 : ℝ)/20354528006837021758, (1 : ℝ)/2, (1 : ℝ)/2, (1 : ℝ)/2],
   [(3499880005200079998 : ℝ)/4546204176154015303, (15176564033417510879 : ℝ)/20354528006837021758, (1 : ℝ)/2, (1 : ℝ)/2, (1 : ℝ)/2],
   [(0 : ℝ), (178363945420310859 : ℝ)/20354528006837021758, (1 : ℝ)/2, (1 : ℝ)/2, (1 : ℝ)/2],
   [(3097121615659074423 : ℝ)/4546204176154015303, (8148697300213923388 : ℝ)/10177264003418510879, (1 : ℝ), (1 : ℝ), (1 : ℝ)],
   [(2402598400740685583 : ℝ)/4546204176154015303, (2028566703204587491 : ℝ)/10177264003418510879, (0 : ℝ), (0 : ℝ), (0 : ℝ)],
   [(16752340783411147011 : ℝ)/22731020880770076515, (12638816201074158279 : ℝ)/20354528006837021758, (3 : ℝ)/4, (3 : ℝ)/4, (3 : ℝ)/4],
   [(10746259298587653019 : ℝ)/22731020880770076515, (7715711805762863479 : ℝ)/20354528006837021758, (1 : ℝ)/4, (1 : ℝ)/4, (1 : ℝ)/4],
   [(1 : ℝ), (1 : ℝ), (3 : ℝ)/4, (3 : ℝ)/4, (3 : ℝ)/4],
   [(953515840245744703 : ℝ)/4546204176154015303, (0 : ℝ), (1 : ℝ)/4, (1 : ℝ)/4, (1 : ℝ)/4],
   [(17426482978418703637 : ℝ)/22731020880770076515, (13678986719929148069 : ℝ)/20354528006837021758, (1 : ℝ)/2, (1 : ℝ)/2, (1 : ℝ)/2],
   [(10072117103580096393 : ℝ)/22731020880770076515, (6675541286907873689 : ℝ)/20354528006837021758, (1 : ℝ)/2, (1 : ℝ)/2, (1 : ℝ)/2]] 1 =
  [(1 : ℝ)/2, (15176864031417710899 : ℝ)/20354528006837021758, (15176564033417510879 : ℝ)/20354528006837021758, (178363945420310859 : ℝ)/20354528006837021758, (8148697300213923388 : ℝ)/10177264003418510879, (2028566703204587491 : ℝ)/10177264003418510879, (12638816201074158279 : ℝ)/20354528006837021758, (7715711805762863479 : ℝ)/20354528006837021758, (1 : ℝ), (0 : ℝ), (13678986719929148069 : ℝ)/20354528006837021758, (6675541286907873689 : ℝ)/20354528006837021758] := rfl

theorem m12_mean1 : mean
  [(1 : ℝ)/2, (15176864031417710899 : ℝ)/20354528006837021758, (15176564033417510879 : ℝ)/20354528006837021758, (178363945420310859 : ℝ)/20354528006837021758, (8148697300213923388 : ℝ)/10177264003418510879, (2028566703204587491 : ℝ)/10177264003418510879, (12638816201074158279 : ℝ)/20354528006837021758, (7715711805762863479 : ℝ)/20354528006837021758, (1 : ℝ), (0 : ℝ), (13678986719929148069 : ℝ)/20354528006837021758, (6675541286907873689 : ℝ)/20354528006837021758] = (1 : ℝ)/2 := by
  norm_num [mean]

theorem m12_var1 : popVar
  [(1 : ℝ)/2, (15176864031417710899 : ℝ)/20354528006837021758, (15176564033417510879 : ℝ)/20354528006837021758, (178363945420310859 : ℝ)/20354528006837021758, (8148697300213923388 : ℝ)/10177264003418510879, (2028566703204587491 : ℝ)/10177264003418510879, (12638816201074158279 : ℝ)/20354528006837021758, (7715711805762863479 : ℝ)/20354528006837021758, (1 : ℝ), (0 : ℝ), (13678986719929148069 : ℝ)/20354528006837021758, (6675541286907873689 : ℝ)/20354528006837021758] = ((6249500034999000025 : ℝ)/20354528006837021758) ^ 2 := by
  unfold popVar
  rw [m12_mean1]
  norm_num

theorem m12_scale1 : scaleOf
  [(1 : ℝ)/2, (15176864031417710899 : ℝ)/20354528006837021758, (15176564033417510879 : ℝ)/20354528006837021758, (178363945420310859 : ℝ)/20354528006837021758, (8148697300213923388 : ℝ)/10177264003418510879, (2028566703204587491 : ℝ)/10177264003418510879, (12638816201074158279 : ℝ)/20354528006837021758, (7715711805762863479 : ℝ)/20354528006837021758, (1 : ℝ), (0 : ℝ), (13678986719929148069 : ℝ)/20354528006837021758, (6675541286907873689 : ℝ)/20354528006837021758] = (6249500034999000025 : ℝ)/20354528006837021758 := by
  unfold scaleOf
  rw [m12_var1, if_neg (by norm_num), Real.sqrt_sq (by norm_num)]

theorem m12_col2 : column
  [[(3999760015199680008 : ℝ)/4546204176154015303, (1 : ℝ)/2, (1 : ℝ)/2, (1 : ℝ)/2, (1 : ℝ)/2],
   [(3499800012399760006 : ℝ)/4546204176154015303, (15176864031417710899 : ℝ)/20354528006837021758, (1 : ℝ)/2, (1 : ℝ)/2, (1 : ℝ)/2],
   [(3499880005200079998 : ℝ)/4546204176154015303, (15176564033417510879 : ℝ)/20354528006837021758, (1 : ℝ)/2, (1 : ℝ)/2, (1 : ℝ)/2],
   [(0 : ℝ), (178363945420310859 : ℝ)/20354528006837021758, (1 : ℝ)/2, (1 : ℝ)/2, (1 : ℝ)/2],
   [(3097121615659074423 : ℝ)/4546204176154015303, (8148697300213923388 : ℝ)/10177264003418510879, (1 : ℝ), (1 : ℝ), (1 : ℝ)],
   [(2402598400740685583 : ℝ)/4546204176154015303, (2028566703204587491 : ℝ)/10177264003418510879, (0 : ℝ), (0 : ℝ), (0 : ℝ)],
   [(16752340783411147011 : ℝ)/22731020880770076515, (12638816201074158279 : ℝ)/20354528006837021758, (3 : ℝ)/4, (3 : ℝ)/4, (3 : ℝ)/4],
   [(10746259298587653019 : ℝ)/22731020880770076515, (7715711805762863479 : ℝ)/20354528006837021758, (1 : ℝ)/4, (1 : ℝ)/4, (1 : ℝ)/4],
   [(1 : ℝ), (1 : ℝ), (3 : ℝ)/4, (3 : ℝ)/4, (3 : ℝ)/4],
   [(953515840245744703 : ℝ)/4546204176154015303, (0 : ℝ), (1 : ℝ)/4, (1 : ℝ)/4, (1 : ℝ)/4],
   [(17426482978418703637 : ℝ)/22731020880770076515, (13678986719929148069 : ℝ)/20354528006837021758, (1 : ℝ)/2, (1 : ℝ)/2, (1 : ℝ)/2],
   [(10072117103580096393 : ℝ)/22731020880770076515, (6675541286907873689 : ℝ)/20354528006837021758, (1 : ℝ)/2, (1 : ℝ)/2, (1 : ℝ)/2]] 2 =
  [(1 : ℝ)/2, (1 : ℝ)/2, (1 : ℝ)/2, (1 : ℝ)/2, (1 : ℝ), (0 : ℝ), (3 : ℝ)/4, (1 : ℝ)/4, (3 : ℝ)/4, (1 : ℝ)/4, (1 : ℝ)/2, (1 : ℝ)/2] := rfl

theorem m12_mean2 : mean
  [(1 : ℝ)/2, (1 : ℝ)/2, (1 : ℝ)/2, (1 : ℝ)/2, (1 : ℝ), (0 : ℝ), (3 : ℝ)/4, (1 : ℝ)/4, (3 : ℝ)/4, (1 : ℝ)/4, (1 : ℝ)/2, (1 : ℝ)/2] = (1 : ℝ)/2 := by
  norm_num [mean]

theorem m12_var2 : popVar
  [(1 : ℝ)/2, (1 : ℝ)/2, (1 : ℝ)/2, (1 : ℝ)/2, (1 : ℝ), (0 : ℝ), (3 : ℝ)/4, (1 : ℝ)/4, (3 : ℝ)/4, (1 : ℝ)/4, (1 : ℝ)/2, (1 : ℝ)/2] = ((1 : ℝ)/4) ^ 2 := by
  unfold popVar
  rw [m12_mean2]
  norm_num

theorem m12_scale2 : scaleOf
  [(1 : ℝ)/2, (1 : ℝ)/2, (1 : ℝ)/2, (1 : ℝ)/2, (1 : ℝ), (0 : ℝ), (3 : ℝ)/4, (1 : ℝ)/4, (3 : ℝ)/4, (1 : ℝ)/4, (1 : ℝ)/2, (1 : ℝ)/2] = (1 : ℝ)/4 := by
  unfold scaleOf
  rw [m12_var2, if_neg (by norm_num), Real.sqrt_sq (by norm_num)]

theorem m12_col3 : column
  [[(3999760015199680008 : ℝ)/4546204176154015303, (1 : ℝ)/2, (1 : ℝ)/2, (1 : ℝ)/2, (1 : ℝ)/2],
   [(3499800012399760006 : ℝ)/4546204176154015303, (15176864031417710899 : ℝ)/20354528006837021758, (1 : ℝ)/2, (1 : ℝ)/2, (1 : ℝ)/2],
   [(3499880005200079998 : ℝ)/4546204176154015303, (15176564033417510879 : ℝ)/20354528006837021758, (1 : ℝ)/2, (1 : ℝ)/2, (1 : ℝ)/2],
   [(0 : ℝ), (178363945420310859 : ℝ)/20354528006837021758, (1 : ℝ)/2, (1 : ℝ)/2, (1 : ℝ)/2],
   [(3097121615659074423 : ℝ)/4546204176154015303, (8148697300213923388 : ℝ)/10177264003418510879, (1 : ℝ), (1 : ℝ), (1 : ℝ)],
   [(2402598400740685583 : ℝ)/4546204176154015303, (2028566703204587491 : ℝ)/10177264003418510879, (0 : ℝ), (0 : ℝ), (0 : ℝ)],
   [(16752340783411147011 : ℝ)/22731020880770076515, (12638816201074158279 : ℝ)/20354528006837021758, (3 : ℝ)/4, (3 : ℝ)/4, (3 : ℝ)/4],
   [(10746259298587653019 : ℝ)/22731020880770076515, (7715711805762863479 : ℝ)/20354528006837021758, (1 : ℝ)/4, (1 : ℝ)/4, (1 : ℝ)/4],
   [(1 : ℝ), (1 : ℝ), (3 : ℝ)/4, (3 : ℝ)/4, (3 : ℝ)/4],
   [(953515840245744703 : ℝ)/4546204176154015303, (0 : ℝ), (1 : ℝ)/4, (1 : ℝ)/4, (1 : ℝ)/4],
   [(17426482978418703637 : ℝ)/22731020880770076515, (13678986719929148069 : ℝ)/20354528006837021758, (1 : ℝ)/2, (1 : ℝ)/2, (1 : ℝ)/2],
   [(10072117103580096393 : ℝ)/22731020880770076515, (6675541286907873689 : ℝ)/20354528006837021758, (1 : ℝ)/2, (1 : ℝ)/2, (1 : ℝ)/2]] 3 =
  [(1 : ℝ)/2, (1 : ℝ)/2, (1 : ℝ)/2, (1 : ℝ)/2, (1 : ℝ), (0 : ℝ), (3 : ℝ)/4, (1 : ℝ)/4, (3 : ℝ)/4, (1 : ℝ)/4, (1 : ℝ)/2, (1 : ℝ)/2] := rfl

theorem m12_col4 : column
  [[(3999760015199680008 : ℝ)/4546204176154015303, (1 : ℝ)/2, (1 : ℝ)/2, (1 : ℝ)/2, (1 : ℝ)/2],
   [(3499800012399760006 : ℝ)/4546204176154015303, (15176864031417710899 : ℝ)/20354528006837021758, (1 : ℝ)/2, (1 : ℝ)/2, (1 : ℝ)/2],
   [(3499880005200079998 : ℝ)/4546204176154015303, (15176564033417510879 : ℝ)/20354528006837021758, (1 : ℝ)/2, (1 : ℝ)/2, (1 : ℝ)/2],
   [(0 : ℝ), (178363945420310859 : ℝ)/20354528006837021758, (1 : ℝ)/2, (1 : ℝ)/2, (1 : ℝ)/2],
   [(3097121615659074423 : ℝ)/4546204176154015303, (8148697300213923388 : ℝ)/10177264003418510879, (1 : ℝ), (1 : ℝ), (1 : ℝ)],
   [(2402598400740685583 : ℝ)/4546204176154015303, (2028566703204587491 : ℝ)/10177264003418510879, (0 : ℝ), (0 : ℝ), (0 : ℝ)],
   [(16752340783411147011 : ℝ)/22731020880770076515, (12638816201074158279 : ℝ)/20354528006837021758, (3 : ℝ)/4, (3 : ℝ)/4, (3 : ℝ)/4],
   [(10746259298587653019 : ℝ)/22731020880770076515, (7715711805762863479 : ℝ)/20354528006837021758, (1 : ℝ)/4, (1 : ℝ)/4, (1 : ℝ)/4],
   [(1 : ℝ), (1 : ℝ), (3 : ℝ)/4, (3 : ℝ)/4, (3 : ℝ)/4],
   [(953515840245744703 : ℝ)/4546204176154015303, (0 : ℝ), (1 : ℝ)/4, (1 : ℝ)/4, (1 : ℝ)/4],
   [(17426482978418703637 : ℝ)/22731020880770076515, (13678986719929148069 : ℝ)/20354528006837021758, (1 : ℝ)/2, (1 : ℝ)/2, (1 : ℝ)/2],
   [(10072117103580096393 : ℝ)/22731020880770076515, (6675541286907873689 : ℝ)/20354528006837021758, (1 : ℝ)/2, (1 : ℝ)/2, (1 : ℝ)/2]] 4 =
  [(1 : ℝ)/2, (1 : ℝ)/2, (1 : ℝ)/2, (1 : ℝ)/2, (1 : ℝ), (0 : ℝ), (3 : ℝ)/4, (1 : ℝ)/4, (3 : ℝ)/4, (1 : ℝ)/4, (1 : ℝ)/2, (1 : ℝ)/2] := rfl

theorem x12_eval : featureMatrix users12 = z12 := by
  show normalizeMatrix (rawMatrix users12) = _
  rw [raw_users12]
  unfold normalizeMatrix
  simp only [List.map_cons, List.map_nil, List.length_cons, List.length_nil]
  rw [show List.range (0 + 1 + 1 + 1 + 1 + 1) = [0, 1, 2, 3, 4] from rfl]
  simp only [List.zip_cons_cons, List.zip_nil_right, List.map_cons, List.map_nil]
  simp only [normalizeEntry]
  rw [m12_col0, m12_col1, m12_col2, m12_col3, m12_col4]
  rw [m12_mean0, m12_mean1, m12_mean2, m12_scale0, m12_scale1, m12_scale2]
  unfold z12
  norm_num

theorem cos_z0_z1 :
    cosSklearn [(1 : ℝ), (0 : ℝ), (0 : ℝ), (0 : ℝ), (0 : ℝ)]
      [(3 : ℝ)/5, (4 : ℝ)/5, (0 : ℝ), (0 : ℝ), (0 : ℝ)] = 3/5 := by
  unfold cosSklearn
  rw [show dotR [(1 : ℝ), (0 : ℝ), (0 : ℝ), (0 : ℝ), (0 : ℝ)]
        [(1 : ℝ), (0 : ℝ), (0 : ℝ), (0 : ℝ), (0 : ℝ)] = 1 by
      norm_num [dotR, List.zip_cons_cons],
    show dotR [(3 : ℝ)/5, (4 : ℝ)/5, (0 : ℝ), (0 : ℝ), (0 : ℝ)]
        [(3 : ℝ)/5, (4 : ℝ)/5, (0 : ℝ), (0 : ℝ), (0 : ℝ)] = 1 by
      norm_num [dotR, List.zip_cons_cons],
    show dotR [(1 : ℝ), (0 : ℝ), (0 : ℝ), (0 : ℝ), (0 : ℝ)]
        [(3 : ℝ)/5, (4 : ℝ)/5, (0 : ℝ), (0 : ℝ), (0 : ℝ)] = 3/5 by
      norm_num [dotR, List.zip_cons_cons],
    Real.sqrt_one]
  simp [nz]

theorem cos_z0_z2 :
    cosSklearn [(1 : ℝ), (0 : ℝ), (0 : ℝ), (0 : ℝ), (0 : ℝ)]
      [(300019999 : ℝ)/499980001, (399960000 : ℝ)/499980001,
        (0 : ℝ), (0 : ℝ), (0 : ℝ)] = 300019999/499980001 := by
  unfold cosSklearn
  rw [show dotR [(1 : ℝ), (0 : ℝ), (0 : ℝ), (0 : ℝ), (0 : ℝ)]
        [(1 : ℝ), (0 : ℝ), (0 : ℝ), (0 : ℝ), (0 : ℝ)] = 1 by
      norm_num [dotR, List.zip_cons_cons],
    show dotR [(300019999 : ℝ)/499980001, (399960000 : ℝ)/499980001,
          (0 : ℝ), (0 : ℝ), (0 : ℝ)]
        [(300019999 : ℝ)/499980001, (399960000 : ℝ)/499980001,
          (0 : ℝ), (0 : ℝ), (0 : ℝ)] = 1 by
      norm_num [dotR, List.zip_cons_cons],
    show dotR [(1 : ℝ), (0 : ℝ), (0 : ℝ), (0 : ℝ), (0 : ℝ)]
        [(300019999 : ℝ)/499980001, (399960000 : ℝ)/499980001,
          (0 : ℝ), (0 : ℝ), (0 : ℝ)] = 300019999/499980001 by
      norm_num [dotR, List.zip_cons_cons],
    Real.sqrt_one]
  simp [nz]

theorem score80_low : round2 (rescale ((3 : ℝ)/5)) = 80 := by
  unfold round2 rescale
  rw [show (100 : ℝ) * ((3/5 + 1) / 2 * 100) = ((8000 : ℤ) : ℝ) by norm_num,
    round_intCast]
  norm_num

theorem score80_high : round2 (rescale ((300019999 : ℝ)/499980001)) = 80 := by
  unfold round2 rescale
  have hr : round ((100 : ℝ) * ((300019999/499980001 + 1) / 2 * 100)) = 8000 := by
    rw [round_eq]
    refine Int.floor_eq_iff.mpr ⟨?_, ?_⟩ <;> norm_num
  rw [hr]
  norm_num

theorem sort_two_pairs :
    List.insertionSort (fun p q : ℝ × ℕ => q.1 ≤ p.1)
      [((3 : ℝ)/5, 1), ((300019999 : ℝ)/499980001, 2)] =
      [((300019999 : ℝ)/499980001, 2), ((3 : ℝ)/5, 1)] := by
  simp only [List.insertionSort, List.orderedInsert]
  rw [if_neg]
  norm_num

/-- C5 counterexample: on the snapshot `users12` (cohort assignment
`labels12`, query "q", `top_n = 5`) the endpoint returns user "b" *before*
user "a" although both carry the identical rescaled score 80.0 and "a"
precedes "b" in the snapshot: the code sorts by *raw* similarity
(`300019999/499980001 > 3/5`), so candidates with equal rescaled scores are
NOT in original snapshot order. -/
theorem c5_counterexample :
    cluster users12 "q" 5 labels12 = .ok [⟨"b", 80⟩, ⟨"a", 80⟩] ∧
    (users12.map UserRecord.uid).indexOf "a" = 1 ∧
    (users12.map UserRecord.uid).indexOf "b" = 2 := by
  refine ⟨?_, rfl, rfl⟩
  have step : cluster users12 "q" 5 labels12 =
      .ok (rankCandidates users12 5
        [(cosSklearn ((featureMatrix users12).getD 0 [])
            ((featureMatrix users12).getD 1 []), 1),
          (cosSklearn ((featureMatrix users12).getD 0 [])
            ((featureMatrix users12).getD 2 []), 2)]) := rfl
  rw [step, x12_eval]
  show ClusterResponse.ok (rankCandidates users12 5
    [(cosSklearn [(1 : ℝ), (0 : ℝ), (0 : ℝ), (0 : ℝ), (0 : ℝ)]
        [(3 : ℝ)/5, (4 : ℝ)/5, (0 : ℝ), (0 : ℝ), (0 : ℝ)], 1),
      (cosSklearn [(1 : ℝ), (0 : ℝ), (0 : ℝ), (0 : ℝ), (0 : ℝ)]
        [(300019999 : ℝ)/499980001, (399960000 : ℝ)/499980001,
          (0 : ℝ), (0 : ℝ), (0 : ℝ)], 2)]) = _
  rw [cos_z0_z1, cos_z0_z2]
  unfold rankCandidates sortPairsDesc
  rw [sort_two_pairs]
  show ClusterResponse.ok
    [⟨"b", round2 (rescale ((300019999 : ℝ)/499980001))⟩,
     ⟨"a", round2 (rescale ((3 : ℝ)/5))⟩] = _
  rw [score80_low, score80_high]

theorem sortPairsDesc_sorted (l : List (ℝ × ℕ)) :
    (sortPairsDesc l).Pairwise (fun p q => q.1 ≤ p.1) := by
  unfold sortPairsDesc
  haveI : IsTotal (ℝ × ℕ) (fun p q => q.1 ≤ p.1) := ⟨fun a b => le_total b.1 a.1⟩
  haveI : IsTrans (ℝ × ℕ) (fun p q => q.1 ≤ p.1) :=
    ⟨fun a b c h1 h2 => le_trans h2 h1⟩
  exact List.sorted_insertionSort _ l

theorem filter_orderedInsert_key (a : ℝ × ℕ) (l : List (ℝ × ℕ)) (k : ℝ) :
    (l.orderedInsert (fun p q => q.1 ≤ p.1) a).filter
        (fun p => decide (p.1 = k)) =
      if a.1 = k then a :: l.filter (fun p => decide (p.1 = k))
      else l.filter (fun p => decide (p.1 = k)) := by
  induction l with
  | nil =>
      simp only [List.orderedInsert, List.filter]
      by_cases h : a.1 = k <;> simp [h]
  | cons b l ih =>
      simp only [List.orderedInsert]
      by_cases hr : b.1 ≤ a.1
      · rw [if_pos hr]
        by_cases hak : a.1 = k <;> simp [List.filter_cons, hak]
      · rw [if_neg hr]
        have hb : a.1 < b.1 := lt_of_not_le hr
        by_cases hak : a.1 = k <;> by_cases hbk : b.1 = k
        · exfalso
          rw [hak, hbk] at hb
          exact lt_irrefl k hb
        · simp [List.filter_cons, hak, hbk, ih]
        · simp [List.filter_cons, hak, hbk, ih]
        · simp [List.filter_cons, hak, hbk, ih]

theorem filter_sortPairsDesc (l : List (ℝ × ℕ)) (k : ℝ) :
    (sortPairsDesc l).filter (fun p => decide (p.1 = k)) =
      l.filter (fun p => decide (p.1 = k)) := by
  unfold sortPairsDesc
  induction l with
  | nil => rfl
  | cons a l ih =>
      show (List.orderedInsert _ a (List.insertionSort _ l)).filter _ = _
      rw [filter_orderedInsert_key, List.filter_cons]
      by_cases hak : a.1 = k <;> simp [hak, ih]

theorem rankCandidates_sorted_desc (users : List UserRecord) (topn : ℕ)
    (pairs : List (ℝ × ℕ)) :
    (rankCandidates users topn pairs).Pairwise
      (fun p q => q.similarity ≤ p.similarity) := by
  unfold rankCandidates
  rw [List.pairwise_map]
  have h2 : (sortPairsDesc pairs).Pairwise
      (fun p q => round2 (rescale q.1) ≤ round2 (rescale p.1)) :=
    (sortPairsDesc_sorted pairs).imp (fun hle => round2_rescale_mono hle)
  exact h2.sublist (List.take_sublist topn _)

/-- C5 (amended): the returned results are sorted by *raw* cosine similarity
descending — hence also weakly descending in the rounded rescaled score — and
candidates with equal *raw* similarity keep their original order (the sort is
stable: filtering any similarity value out of the sorted list returns those
pairs in input order).  But two candidates whose distinct raw similarities
round to the same displayed score are ordered by raw similarity, not by
snapshot position (`c5_counterexample`). -/
theorem c5_sorted_and_stable (users : List UserRecord) (topn : ℕ)
    (pairs : List (ℝ × ℕ)) (k : ℝ) :
    (sortPairsDesc pairs).Pairwise (fun p q => q.1 ≤ p.1) ∧
    (rankCandidates users topn pairs).Pairwise
      (fun p q => q.similarity ≤ p.similarity) ∧
    (sortPairsDesc pairs).filter (fun p => decide (p.1 = k)) =
      pairs.filter (fun p => decide (p.1 = k)) :=
  ⟨sortPairsDesc_sorted pairs, rankCandidates_sorted_desc users topn pairs,
    filter_sortPairsDesc pairs k⟩
